import Mathlib

/-!
Verification development for the DPS-150 python library.

This file gives a shallow embedding of the protocol codec
(`dps150/protocol.py`), the stream framer (`PacketBuffer`), the packet
field decoder and state aggregator (`dps150/device.py`, `dps150/models.py`)
and the domain-validated write operations of the `DPS150` class, together
with theorems settling the specification claims about them.

Conventions of the embedding:
- machine bytes are `Nat` values; byte sequences are `List Nat`;
- Python exceptions become `Except DPSErr`; the three exception kinds that
  the claims distinguish are `DPSErr.protocolError` (`DPS150ProtocolError`),
  `DPSErr.valueError` (builtin `ValueError`, the spec's `InvalidArgument`)
  and `DPSErr.connectionError` (`DPS150ConnectionError`); exception message
  strings are not modelled;
- IEEE-754 single-precision values are decoded exactly: a 32-bit pattern
  maps to `F32Value` (an exact rational for finite values, or an
  infinity/NaN tag);
- a Python `float` handed to a write operation is abstracted by the 32-bit
  pattern that `struct.pack("<f", value)` produces for it (`PyFloat`).
-/

namespace DPS150

/-! ## Constants (`dps150/constants.py`) -/

def HEADER_INPUT : Nat := 0xF0
def HEADER_OUTPUT : Nat := 0xF1
def CMD_GET : Nat := 0xA1
def CMD_SET : Nat := 0xB1

def VOLTAGE_SET : Nat := 193
def CURRENT_SET : Nat := 194
def GROUP1_VOLTAGE_SET : Nat := 197
def GROUP1_CURRENT_SET : Nat := 198
def OVP : Nat := 209
def OCP : Nat := 210
def OPP : Nat := 211
def OTP : Nat := 212
def LVP : Nat := 213
def BRIGHTNESS : Nat := 214
def VOLUME : Nat := 215
def METERING_ENABLE : Nat := 216
def OUTPUT_ENABLE : Nat := 219
def INPUT_VOLTAGE : Nat := 192
def OUTPUT_VOLTAGE_CURRENT_POWER : Nat := 195
def TEMPERATURE : Nat := 196
def OUTPUT_CAPACITY : Nat := 217
def OUTPUT_ENERGY : Nat := 218
def PROTECTION_STATE : Nat := 220
def MODE : Nat := 221
def MODEL_NAME : Nat := 222
def HARDWARE_VERSION : Nat := 223
def FIRMWARE_VERSION : Nat := 224
def UPPER_LIMIT_VOLTAGE : Nat := 226
def UPPER_LIMIT_CURRENT : Nat := 227
def ALL : Nat := 255

def PROTECTION_STATES : List String :=
  ["", "OVP", "OCP", "OPP", "OTP", "LVP", "REP"]

/-! ## Exception kinds -/

/-- Exception kinds the claims distinguish.  `protocolError` stands for
`DPS150ProtocolError`, `valueError` for Python's builtin `ValueError`
(the spec's `InvalidArgument`), `connectionError` for
`DPS150ConnectionError`.  Messages are not modelled. -/
inductive DPSErr where
  | protocolError : DPSErr
  | valueError : DPSErr
  | connectionError : DPSErr
deriving DecidableEq, Repr

/-! ## IEEE-754 single precision (exact decoding) -/

/-- The exact value denoted by an IEEE-754 single-precision bit pattern:
a rational for finite values, or an infinity/NaN tag. -/
inductive F32Value where
  | finite : ℚ → F32Value
  | infinity : Bool → F32Value
  | nan : F32Value
deriving DecidableEq, Repr

/-- Exact IEEE-754 binary32 decoding of a 32-bit word (sign bit 31,
exponent bits 23-30, fraction bits 0-22). -/
def f32FromBits (w : Nat) : F32Value :=
  let sign : Nat := w / 2 ^ 31 % 2
  let expo : Nat := w / 2 ^ 23 % 2 ^ 8
  let frac : Nat := w % 2 ^ 23
  let sgn : ℚ := if sign = 1 then -1 else 1
  if expo = 255 then
    if frac = 0 then .infinity (sign = 1) else .nan
  else if expo = 0 then
    .finite (sgn * frac * (2 : ℚ) ^ (-(149 : ℤ)))
  else
    .finite (sgn * ((2 : ℚ) ^ (23 : ℕ) + frac) * (2 : ℚ) ^ ((expo : ℤ) - 150))

/-- The 32-bit word formed from the first four bytes of `bs` in
little-endian order (missing bytes read as zero). -/
def leWord32 (bs : List Nat) : Nat :=
  bs.getD 0 0 + 256 * bs.getD 1 0 + 65536 * bs.getD 2 0 + 16777216 * bs.getD 3 0

/-! ## Codec (`dps150/protocol.py`) -/

/-- Embeds `bytes_to_float`: raises `DPS150ProtocolError` when fewer than
4 bytes are supplied, otherwise unpacks the first 4 bytes as a
little-endian IEEE-754 single-precision value (`struct.unpack("<f", data[:4])`). -/
def bytes_to_float (data : List Nat) : Except DPSErr F32Value :=
  if data.length < 4 then .error .protocolError
  else .ok (f32FromBits (leWord32 (data.take 4)))

/-- Embeds `float_to_bytes` / `struct.pack("<f", value)` with the Python
float abstracted by its packed single-precision pattern. -/
structure PyFloat where
  bits : Nat
deriving DecidableEq, Repr

/-- The four little-endian bytes of a `PyFloat`'s packed pattern. -/
def float_to_bytes (v : PyFloat) : List Nat :=
  [v.bits % 256, v.bits / 256 % 256, v.bits / 65536 % 256, v.bits / 16777216 % 256]

/-- Embeds `calculate_checksum`: sum of type code, length and data bytes
modulo 256; the `header` and `command` arguments are accepted and ignored
exactly as in the source. -/
def calculate_checksum (header command type_code : Nat) (data : List Nat) : Nat :=
  (type_code + data.length + data.sum) % 256

/-- Embeds `encode_packet`: `[0xF1, command, type, length, data..., checksum]`. -/
def encode_packet (command type_code : Nat) (data : List Nat) : List Nat :=
  HEADER_OUTPUT :: command :: type_code :: data.length ::
    (data ++ [calculate_checksum HEADER_OUTPUT command type_code data])

/-- Embeds `decode_packet`: checks minimum size, the inbound header, the
declared length against the supplied bytes, and the checksum, then returns
`(command, type_code, length, data)`. -/
def decode_packet (packet : List Nat) : Except DPSErr (Nat × Nat × Nat × List Nat) :=
  if packet.length < 5 then .error .protocolError
  else if packet.getD 0 0 ≠ HEADER_INPUT then .error .protocolError
  else
    let command := packet.getD 1 0
    let type_code := packet.getD 2 0
    let length := packet.getD 3 0
    if packet.length < 5 + length then .error .protocolError
    else
      let data := (packet.drop 4).take length
      let checksum := packet.getD (4 + length) 0
      if checksum ≠ calculate_checksum HEADER_INPUT command type_code data then
        .error .protocolError
      else .ok (command, type_code, length, data)

/-! ## Stream framer (`PacketBuffer`) -/

/-- Embeds the scan loop of `PacketBuffer.extract_packets`.  The Python
`while i < len(self.buffer) - 5` guard (integer subtraction) is rendered
as `i + 5 < buf.length`.  The loop either skips one byte (resync), stops
(too few bytes or incomplete packet), or slices out a complete packet and
advances past it.  Returns the packets in order together with the resume
index `i`.  `fuel` bounds the iteration count; each iteration advances `i`
by at least one while requiring `i < buf.length`, so `fuel = buf.length`
reproduces the loop exactly. -/
def extractLoop : Nat → List Nat → Nat → List (List Nat) → List (List Nat) × Nat
  | 0, _, i, acc => (acc.reverse, i)
  | fuel + 1, buf, i, acc =>
    if i + 5 < buf.length then
      if buf.getD i 0 = HEADER_INPUT then
        if buf.length ≤ i + 3 then (acc.reverse, i)
        else
          let length := buf.getD (i + 3) 0
          let packet_length := 5 + length
          if buf.length < i + packet_length then (acc.reverse, i)
          else extractLoop fuel buf (i + packet_length) (((buf.drop i).take packet_length) :: acc)
      else extractLoop fuel buf (i + 1) acc
    else (acc.reverse, i)

/-- The resume index at which the scan of `extract_packets` stops. -/
def scanResume (buf : List Nat) : Nat :=
  (extractLoop buf.length buf 0 []).2

/-- Embeds `PacketBuffer.extract_packets` on an explicit buffer: returns
the extracted packets and the new buffer contents.  As in the source, the
consumed prefix is dropped only when at least one packet was extracted
(`if packets: self.buffer = self.buffer[i:]`). -/
def extract_packets (buf : List Nat) : List (List Nat) × List Nat :=
  let r := extractLoop buf.length buf 0 []
  if r.1 = [] then (r.1, buf) else (r.1, buf.drop r.2)

/-- Embeds a sequence of `PacketBuffer.append` + `extract_packets` cycles:
each chunk is appended to the buffer and the complete packets are
extracted, accumulating all extracted packets in order. -/
def runChunks : List (List Nat) → List Nat → List (List Nat) × List Nat
  | [], buf => ([], buf)
  | c :: rest, buf =>
    let r := extract_packets (buf ++ c)
    let r2 := runChunks rest r.2
    (r.1 ++ r2.1, r2.2)

/-! ## Enumerations and records (`dps150/models.py`) -/

/-- Embeds the `ProtectionState` enum; the associated wire strings are
given by `ProtectionState.value`. -/
inductive ProtectionState where
  | NORMAL | OVP | OCP | OPP | OTP | LVP | REP
deriving DecidableEq, Repr

/-- The string value of each `ProtectionState` member. -/
def ProtectionState.value : ProtectionState → String
  | .NORMAL => "" | .OVP => "OVP" | .OCP => "OCP" | .OPP => "OPP"
  | .OTP => "OTP" | .LVP => "LVP" | .REP => "REP"

/-- The members of `ProtectionState` in class declaration order, as Python
iterates them in `from_string`. -/
def ProtectionState.members : List ProtectionState :=
  [.NORMAL, .OVP, .OCP, .OPP, .OTP, .LVP, .REP]

/-- Embeds `ProtectionState.from_string`: the first member whose value
equals the string, defaulting to `NORMAL`. -/
def ProtectionState.from_string (value : String) : ProtectionState :=
  (ProtectionState.members.find? (fun st => st.value = value)).getD .NORMAL

/-- Embeds the `Mode` enum (constant current / constant voltage). -/
inductive Mode where
  | CC | CV
deriving DecidableEq, Repr

/-- Embeds the `DeviceInfo` dataclass. -/
structure DeviceInfo where
  model_name : String := ""
  hardware_version : String := ""
  firmware_version : String := ""
deriving DecidableEq, Repr

/-- Embeds the `DeviceState` dataclass with its field defaults. -/
structure DeviceState where
  input_voltage : F32Value := .finite 0
  output_voltage : F32Value := .finite 0
  output_current : F32Value := .finite 0
  output_power : F32Value := .finite 0
  temperature : F32Value := .finite 0
  set_voltage : F32Value := .finite 0
  set_current : F32Value := .finite 0
  group1_set_voltage : F32Value := .finite 0
  group1_set_current : F32Value := .finite 0
  group2_set_voltage : F32Value := .finite 0
  group2_set_current : F32Value := .finite 0
  group3_set_voltage : F32Value := .finite 0
  group3_set_current : F32Value := .finite 0
  group4_set_voltage : F32Value := .finite 0
  group4_set_current : F32Value := .finite 0
  group5_set_voltage : F32Value := .finite 0
  group5_set_current : F32Value := .finite 0
  group6_set_voltage : F32Value := .finite 0
  group6_set_current : F32Value := .finite 0
  over_voltage_protection : F32Value := .finite 0
  over_current_protection : F32Value := .finite 0
  over_power_protection : F32Value := .finite 0
  over_temperature_protection : F32Value := .finite 0
  low_voltage_protection : F32Value := .finite 0
  brightness : Nat := 0
  volume : Nat := 0
  metering_closed : Bool := false
  output_capacity : F32Value := .finite 0
  output_energy : F32Value := .finite 0
  output_closed : Bool := false
  protection_state : ProtectionState := .NORMAL
  mode : Mode := .CV
  upper_limit_voltage : F32Value := .finite 0
  upper_limit_current : F32Value := .finite 0
deriving DecidableEq, Repr

/-! ## Parsed packet data (the dict built by `DPS150._parse_packet_data`) -/

/-- The dictionary `_parse_packet_data` builds, as a record of optional
fields: a field is `some v` exactly when the corresponding camelCase key
is present in the Python dict. -/
structure ParsedData where
  inputVoltage : Option F32Value := none
  outputVoltage : Option F32Value := none
  outputCurrent : Option F32Value := none
  outputPower : Option F32Value := none
  temperature : Option F32Value := none
  setVoltage : Option F32Value := none
  setCurrent : Option F32Value := none
  group1setVoltage : Option F32Value := none
  group1setCurrent : Option F32Value := none
  group2setVoltage : Option F32Value := none
  group2setCurrent : Option F32Value := none
  group3setVoltage : Option F32Value := none
  group3setCurrent : Option F32Value := none
  group4setVoltage : Option F32Value := none
  group4setCurrent : Option F32Value := none
  group5setVoltage : Option F32Value := none
  group5setCurrent : Option F32Value := none
  group6setVoltage : Option F32Value := none
  group6setCurrent : Option F32Value := none
  overVoltageProtection : Option F32Value := none
  overCurrentProtection : Option F32Value := none
  overPowerProtection : Option F32Value := none
  overTemperatureProtection : Option F32Value := none
  lowVoltageProtection : Option F32Value := none
  brightness : Option Nat := none
  volume : Option Nat := none
  meteringClosed : Option Bool := none
  outputCapacity : Option F32Value := none
  outputEnergy : Option F32Value := none
  outputClosed : Option Bool := none
  protectionState : Option String := none
  mode : Option String := none
  modelName : Option String := none
  hardwareVersion : Option String := none
  firmwareVersion : Option String := none
  upperLimitVoltage : Option F32Value := none
  upperLimitCurrent : Option F32Value := none
deriving DecidableEq, Repr

/-! ## Text decoding (`data.decode("utf-8", errors="ignore")` plus trimming) -/

/-- Whether a byte is a UTF-8 continuation byte. -/
def isContByte (b : Nat) : Bool := 0x80 ≤ b && b < 0xC0

/-- Models `bytes.decode("utf-8", errors="ignore")`: standard UTF-8
multi-byte decoding, skipping bytes that do not start a complete valid
sequence.  No claim depends on the decoded text, so exotic invalid
sequences (overlong forms, surrogates) are handled approximately. -/
def utf8DecodeIgnore : List Nat → List Char
  | [] => []
  | b :: rest =>
    if b < 0x80 then Char.ofNat b :: utf8DecodeIgnore rest
    else if 0xC2 ≤ b && b ≤ 0xDF then
      match rest with
      | b2 :: rest2 =>
        if isContByte b2 then
          Char.ofNat ((b - 0xC0) * 64 + (b2 - 0x80)) :: utf8DecodeIgnore rest2
        else utf8DecodeIgnore (b2 :: rest2)
      | [] => []
    else if 0xE0 ≤ b && b ≤ 0xEF then
      match rest with
      | b2 :: b3 :: rest3 =>
        if isContByte b2 && isContByte b3 then
          Char.ofNat ((b - 0xE0) * 4096 + (b2 - 0x80) * 64 + (b3 - 0x80)) ::
            utf8DecodeIgnore rest3
        else utf8DecodeIgnore (b2 :: b3 :: rest3)
      | [b2] => utf8DecodeIgnore [b2]
      | [] => []
    else if 0xF0 ≤ b && b ≤ 0xF4 then
      match rest with
      | b2 :: b3 :: b4 :: rest4 =>
        if isContByte b2 && isContByte b3 && isContByte b4 then
          Char.ofNat ((b - 0xF0) * 262144 + (b2 - 0x80) * 4096 +
              (b3 - 0x80) * 64 + (b4 - 0x80)) :: utf8DecodeIgnore rest4
        else utf8DecodeIgnore (b2 :: b3 :: b4 :: rest4)
      | [b2, b3] => utf8DecodeIgnore [b2, b3]
      | [b2] => utf8DecodeIgnore [b2]
      | [] => []
    else utf8DecodeIgnore rest

/-- Models `.rstrip("\x00").strip()` applied to the decoded characters:
drop trailing NULs, then strip surrounding whitespace. -/
def trimDecoded (cs : List Char) : List Char :=
  let noNul := (((cs.reverse).dropWhile (fun c => c = Char.ofNat 0))).reverse
  let noWsEnd := ((noNul.reverse).dropWhile Char.isWhitespace).reverse
  noWsEnd.dropWhile Char.isWhitespace

/-- Models `data.decode("utf-8", errors="ignore").rstrip("\x00").strip()`. -/
def decodeTrimmed (data : List Nat) : String :=
  String.mk (trimDecoded (utf8DecodeIgnore data))

/-! ## Field decoder (`DPS150._parse_packet_data`) -/

/-- Models the Python slice `l[a:b]` of a bytes object (for `a ≤ b`). -/
def pySlice (l : List Nat) (a b : Nat) : List Nat :=
  (l.drop a).take (b - a)

/-- Embeds the `ALL` (type 255) branch body of `_parse_packet_data`
executed when `len(data) >= 139`: the dict literal that decodes every
all-state field at its documented offset.  The guarded entries
(`... if len(view) > k else ...`) are mirrored exactly.  A failing
`bytes_to_float` would raise `DPS150ProtocolError` through the
surrounding `try` (whose `except` clause catches only `IndexError`,
`struct.error` and `ValueError`), which the `Except` bind reproduces. -/
def parseAllState (view : List Nat) : Except DPSErr ParsedData := do
  let inputVoltage ← bytes_to_float (pySlice view 0 4)
  let setVoltage ← bytes_to_float (pySlice view 4 8)
  let setCurrent ← bytes_to_float (pySlice view 8 12)
  let outputVoltage ← bytes_to_float (pySlice view 12 16)
  let outputCurrent ← bytes_to_float (pySlice view 16 20)
  let outputPower ← bytes_to_float (pySlice view 20 24)
  let temperature ← bytes_to_float (pySlice view 24 28)
  let group1setVoltage ← bytes_to_float (pySlice view 28 32)
  let group1setCurrent ← bytes_to_float (pySlice view 32 36)
  let group2setVoltage ← bytes_to_float (pySlice view 36 40)
  let group2setCurrent ← bytes_to_float (pySlice view 40 44)
  let group3setVoltage ← bytes_to_float (pySlice view 44 48)
  let group3setCurrent ← bytes_to_float (pySlice view 48 52)
  let group4setVoltage ← bytes_to_float (pySlice view 52 56)
  let group4setCurrent ← bytes_to_float (pySlice view 56 60)
  let group5setVoltage ← bytes_to_float (pySlice view 60 64)
  let group5setCurrent ← bytes_to_float (pySlice view 64 68)
  let group6setVoltage ← bytes_to_float (pySlice view 68 72)
  let group6setCurrent ← bytes_to_float (pySlice view 72 76)
  let overVoltageProtection ← bytes_to_float (pySlice view 76 80)
  let overCurrentProtection ← bytes_to_float (pySlice view 80 84)
  let overPowerProtection ← bytes_to_float (pySlice view 84 88)
  let overTemperatureProtection ← bytes_to_float (pySlice view 88 92)
  let lowVoltageProtection ← bytes_to_float (pySlice view 92 96)
  let outputCapacity ← if 102 < view.length then bytes_to_float (pySlice view 99 103)
    else pure (.finite 0)
  let outputEnergy ← if 106 < view.length then bytes_to_float (pySlice view 103 107)
    else pure (.finite 0)
  let upperLimitVoltage ← if 114 < view.length then bytes_to_float (pySlice view 111 115)
    else pure (.finite 0)
  let upperLimitCurrent ← if 118 < view.length then bytes_to_float (pySlice view 115 119)
    else pure (.finite 0)
  pure {
    inputVoltage := some inputVoltage
    setVoltage := some setVoltage
    setCurrent := some setCurrent
    outputVoltage := some outputVoltage
    outputCurrent := some outputCurrent
    outputPower := some outputPower
    temperature := some temperature
    group1setVoltage := some group1setVoltage
    group1setCurrent := some group1setCurrent
    group2setVoltage := some group2setVoltage
    group2setCurrent := some group2setCurrent
    group3setVoltage := some group3setVoltage
    group3setCurrent := some group3setCurrent
    group4setVoltage := some group4setVoltage
    group4setCurrent := some group4setCurrent
    group5setVoltage := some group5setVoltage
    group5setCurrent := some group5setCurrent
    group6setVoltage := some group6setVoltage
    group6setCurrent := some group6setCurrent
    overVoltageProtection := some overVoltageProtection
    overCurrentProtection := some overCurrentProtection
    overPowerProtection := some overPowerProtection
    overTemperatureProtection := some overTemperatureProtection
    lowVoltageProtection := some lowVoltageProtection
    brightness := some (if 96 < view.length then view.getD 96 0 else 0)
    volume := some (if 97 < view.length then view.getD 97 0 else 0)
    meteringClosed := some (if 98 < view.length then decide (view.getD 98 0 = 0) else false)
    outputCapacity := some outputCapacity
    outputEnergy := some outputEnergy
    outputClosed := some (if 107 < view.length then decide (view.getD 107 0 = 1) else false)
    protectionState := some (if 108 < view.length ∧ view.getD 108 0 < PROTECTION_STATES.length
      then PROTECTION_STATES.getD (view.getD 108 0) "" else "")
    mode := some (if 109 < view.length ∧ view.getD 109 0 = 0 then "CC" else "CV")
    upperLimitVoltage := some upperLimitVoltage
    upperLimitCurrent := some upperLimitCurrent }

/-- Embeds `DPS150._parse_packet_data`.  Returns `.ok none` where the
Python returns `None` (empty payload, or an empty result dict), `.ok
(some d)` for a non-empty dict, and `.error .protocolError` where
`bytes_to_float` raises `DPS150ProtocolError` — which the surrounding
`try` does not catch (its `except` clause lists only `IndexError`,
`struct.error` and `ValueError`, none of which the embedded operations
raise), so the exception propagates to the caller. -/
def parse_packet_data (type_code : Nat) (data : List Nat) :
    Except DPSErr (Option ParsedData) := do
  if data.length = 0 then return none
  let result : ParsedData ←
    if type_code = INPUT_VOLTAGE then do
      let v ← bytes_to_float data
      pure { inputVoltage := some v }
    else if type_code = OUTPUT_VOLTAGE_CURRENT_POWER then
      if 12 ≤ data.length then do
        let ov ← bytes_to_float (pySlice data 0 4)
        let oc ← bytes_to_float (pySlice data 4 8)
        let op ← bytes_to_float (pySlice data 8 12)
        pure { outputVoltage := some ov, outputCurrent := some oc, outputPower := some op }
      else pure {}
    else if type_code = TEMPERATURE then do
      let v ← bytes_to_float data
      pure { temperature := some v }
    else if type_code = OUTPUT_CAPACITY then do
      let v ← bytes_to_float data
      pure { outputCapacity := some v }
    else if type_code = OUTPUT_ENERGY then do
      let v ← bytes_to_float data
      pure { outputEnergy := some v }
    else if type_code = OUTPUT_ENABLE then
      pure { outputClosed := some (decide (data.getD 0 0 = 1)) }
    else if type_code = PROTECTION_STATE then
      let state_index := if 0 < data.length then data.getD 0 0 else 0
      if state_index < PROTECTION_STATES.length then
        pure { protectionState := some (PROTECTION_STATES.getD state_index "") }
      else pure {}
    else if type_code = MODE then
      pure { mode := some (if data.getD 0 0 = 0 then "CC" else "CV") }
    else if type_code = MODEL_NAME then
      pure { modelName := some (decodeTrimmed data) }
    else if type_code = HARDWARE_VERSION then
      pure { hardwareVersion := some (decodeTrimmed data) }
    else if type_code = FIRMWARE_VERSION then
      pure { firmwareVersion := some (decodeTrimmed data) }
    else if type_code = UPPER_LIMIT_VOLTAGE then do
      let v ← bytes_to_float data
      pure { upperLimitVoltage := some v }
    else if type_code = UPPER_LIMIT_CURRENT then do
      let v ← bytes_to_float data
      pure { upperLimitCurrent := some v }
    else if type_code = ALL then
      if 139 ≤ data.length then parseAllState data
      else pure {}
    else pure {}
  return if result = ({} : ParsedData) then none else some result

/-! ## State aggregation (`DeviceState.update_from_dict`,
`DPS150._on_packet_received`) -/

/-- Embeds `DeviceState.update_from_dict`: each present dict key
overwrites the corresponding state field; `protectionState` goes through
`ProtectionState.from_string`, `mode` maps `"CC"` to `Mode.CC` and
anything else to `Mode.CV`. -/
def DeviceState.update_from_dict (s : DeviceState) (d : ParsedData) : DeviceState :=
  let s := d.inputVoltage.elim s (fun v => { s with input_voltage := v })
  let s := d.outputVoltage.elim s (fun v => { s with output_voltage := v })
  let s := d.outputCurrent.elim s (fun v => { s with output_current := v })
  let s := d.outputPower.elim s (fun v => { s with output_power := v })
  let s := d.temperature.elim s (fun v => { s with temperature := v })
  let s := d.setVoltage.elim s (fun v => { s with set_voltage := v })
  let s := d.setCurrent.elim s (fun v => { s with set_current := v })
  let s := d.group1setVoltage.elim s (fun v => { s with group1_set_voltage := v })
  let s := d.group1setCurrent.elim s (fun v => { s with group1_set_current := v })
  let s := d.group2setVoltage.elim s (fun v => { s with group2_set_voltage := v })
  let s := d.group2setCurrent.elim s (fun v => { s with group2_set_current := v })
  let s := d.group3setVoltage.elim s (fun v => { s with group3_set_voltage := v })
  let s := d.group3setCurrent.elim s (fun v => { s with group3_set_current := v })
  let s := d.group4setVoltage.elim s (fun v => { s with group4_set_voltage := v })
  let s := d.group4setCurrent.elim s (fun v => { s with group4_set_current := v })
  let s := d.group5setVoltage.elim s (fun v => { s with group5_set_voltage := v })
  let s := d.group5setCurrent.elim s (fun v => { s with group5_set_current := v })
  let s := d.group6setVoltage.elim s (fun v => { s with group6_set_voltage := v })
  let s := d.group6setCurrent.elim s (fun v => { s with group6_set_current := v })
  let s := d.overVoltageProtection.elim s (fun v => { s with over_voltage_protection := v })
  let s := d.overCurrentProtection.elim s (fun v => { s with over_current_protection := v })
  let s := d.overPowerProtection.elim s (fun v => { s with over_power_protection := v })
  let s := d.overTemperatureProtection.elim s
    (fun v => { s with over_temperature_protection := v })
  let s := d.lowVoltageProtection.elim s (fun v => { s with low_voltage_protection := v })
  let s := d.brightness.elim s (fun v => { s with brightness := v })
  let s := d.volume.elim s (fun v => { s with volume := v })
  let s := d.meteringClosed.elim s (fun v => { s with metering_closed := v })
  let s := d.outputCapacity.elim s (fun v => { s with output_capacity := v })
  let s := d.outputEnergy.elim s (fun v => { s with output_energy := v })
  let s := d.outputClosed.elim s (fun v => { s with output_closed := v })
  let s := d.protectionState.elim s
    (fun v => { s with protection_state := ProtectionState.from_string v })
  let s := d.mode.elim s (fun v => { s with mode := if v = "CC" then Mode.CC else Mode.CV })
  let s := d.upperLimitVoltage.elim s (fun v => { s with upper_limit_voltage := v })
  let s := d.upperLimitCurrent.elim s (fun v => { s with upper_limit_current := v })
  s

/-- Embeds `DPS150._on_packet_received` acting on the session state: on a
parsed non-empty dict it updates the `DeviceState`, copies the identity
strings into `DeviceInfo` when present, and invokes the subscribed
callbacks (reported by the `Bool`); on `None` or any exception it leaves
everything unchanged and invokes nothing. -/
def on_packet_received (state : DeviceState) (info : DeviceInfo)
    (command type_code : Nat) (data : List Nat) : DeviceState × DeviceInfo × Bool :=
  match parse_packet_data type_code data with
  | .ok (some d) =>
    let state' := state.update_from_dict d
    let info' : DeviceInfo :=
      { model_name := d.modelName.getD info.model_name
        hardware_version := d.hardwareVersion.getD info.hardware_version
        firmware_version := d.firmwareVersion.getD info.firmware_version }
    (state', info', true)
  | _ => (state, info, false)

/-! ## Write operations (`DPS150` methods) -/

/-- Embeds `DPS150._send_command`: raises `DPS150ConnectionError` when the
transport is not attached, otherwise encodes and writes one frame
(returned as the written bytes). -/
def send_command (connected : Bool) (command type_code : Nat) (data : List Nat) :
    Except DPSErr (List Nat) :=
  if connected then .ok (encode_packet command type_code data)
  else .error .connectionError

/-- Embeds `DPS150.set_voltage`: one `CMD_SET`/`VOLTAGE_SET` frame
carrying the packed float. -/
def set_voltage (connected : Bool) (value : PyFloat) : Except DPSErr (List Nat) :=
  send_command connected CMD_SET VOLTAGE_SET (float_to_bytes value)

/-- Embeds `DPS150.set_current`: one `CMD_SET`/`CURRENT_SET` frame
carrying the packed float. -/
def set_current (connected : Bool) (value : PyFloat) : Except DPSErr (List Nat) :=
  send_command connected CMD_SET CURRENT_SET (float_to_bytes value)

/-- Embeds `DPS150.set_brightness`: validates `0 <= value <= 10` (raising
`ValueError` otherwise, before any write), then sends one byte frame.
Returns the list of frames written. -/
def set_brightness (connected : Bool) (value : Int) : Except DPSErr (List (List Nat)) :=
  if ¬ (0 ≤ value ∧ value ≤ 10) then .error .valueError
  else do
    let f ← send_command connected CMD_SET BRIGHTNESS [value.toNat]
    pure [f]

/-- Embeds `DPS150.set_volume`: validates `0 <= value <= 10` (raising
`ValueError` otherwise, before any write), then sends one byte frame. -/
def set_volume (connected : Bool) (value : Int) : Except DPSErr (List (List Nat)) :=
  if ¬ (0 ≤ value ∧ value ≤ 10) then .error .valueError
  else do
    let f ← send_command connected CMD_SET VOLUME [value.toNat]
    pure [f]

/-- Embeds `DPS150.set_group`: validates `1 <= group <= 6` (raising
`ValueError` otherwise, before any write), then writes the live set-point
voltage and current frames followed by the group-slot voltage and current
frames, in that order.  Returns the frames written in write order. -/
def set_group (connected : Bool) (group : Int) (voltage current : PyFloat) :
    Except DPSErr (List (List Nat)) :=
  if ¬ (1 ≤ group ∧ group ≤ 6) then .error .valueError
  else do
    let voltage_type := ((GROUP1_VOLTAGE_SET : Int) + (group - 1) * 2).toNat
    let current_type := ((GROUP1_CURRENT_SET : Int) + (group - 1) * 2).toNat
    let f1 ← set_voltage connected voltage
    let f2 ← set_current connected current
    let f3 ← send_command connected CMD_SET voltage_type (float_to_bytes voltage)
    let f4 ← send_command connected CMD_SET current_type (float_to_bytes current)
    pure [f1, f2, f3, f4]

/-! ## Claim theorems: codec and write operations -/

instance decEqExcept {E A : Type} [DecidableEq E] [DecidableEq A] :
    DecidableEq (Except E A)
  | .error a, .error b =>
    if h : a = b then .isTrue (by rw [h]) else .isFalse (by intro hh; cases hh; exact h rfl)
  | .error _, .ok _ => .isFalse (by intro hh; cases hh)
  | .ok _, .error _ => .isFalse (by intro hh; cases hh)
  | .ok a, .ok b =>
    if h : a = b then .isTrue (by rw [h]) else .isFalse (by intro hh; cases hh; exact h rfl)

theorem decode_frame_ok (cmd ty : Nat) (data : List Nat) :
    decode_packet (HEADER_INPUT :: cmd :: ty :: data.length ::
      (data ++ [calculate_checksum HEADER_INPUT cmd ty data])) =
      .ok (cmd, ty, data.length, data) := by
  set P := HEADER_INPUT :: cmd :: ty :: data.length ::
    (data ++ [calculate_checksum HEADER_INPUT cmd ty data]) with hP
  have hL : P.length = 5 + data.length := by
    simp [hP, List.length_append]; omega
  have h0 : P.getD 0 0 = HEADER_INPUT := rfl
  have h1 : P.getD 1 0 = cmd := rfl
  have h2 : P.getD 2 0 = ty := rfl
  have h3 : P.getD 3 0 = data.length := rfl
  have hdrop : P.drop 4 = data ++ [calculate_checksum HEADER_INPUT cmd ty data] := rfl
  have htake : (P.drop 4).take data.length = data := by
    rw [hdrop, List.take_left]
  have hck : P.getD (4 + data.length) 0 = calculate_checksum HEADER_INPUT cmd ty data := by
    have he : P = [HEADER_INPUT, cmd, ty, data.length] ++
        (data ++ [calculate_checksum HEADER_INPUT cmd ty data]) := rfl
    rw [he, List.getD_append_right _ _ _ _ (by simp)]
    simp
  simp only [decode_packet, hL, h0, h1, h2, h3, htake, hck]
  rw [if_neg (by omega), if_neg (by simp), if_neg (by omega), if_neg (by simp)]

/-- C2: for every command byte, type-code byte and payload of at most 255
bytes, decoding the encoded frame with its header byte replaced by the
inbound value 0xF0 yields back the original command, type code and
payload (with the checksum verifying, since decoding succeeds). -/
theorem c2_encode_decode_roundtrip (command type_code : Nat) (data : List Nat)
    (hc : command ≤ 255) (ht : type_code ≤ 255)
    (hl : data.length ≤ 255) (hb : ∀ b ∈ data, b ≤ 255) :
    decode_packet ((encode_packet command type_code data).set 0 HEADER_INPUT) =
      .ok (command, type_code, data.length, data) := by
  have hset : (encode_packet command type_code data).set 0 HEADER_INPUT =
      HEADER_INPUT :: command :: type_code :: data.length ::
        (data ++ [calculate_checksum HEADER_INPUT command type_code data]) := by
    simp [encode_packet, List.set_cons_zero, calculate_checksum]
  rw [hset, decode_frame_ok]

/-- Witness for `c2_encode_decode_roundtrip` at the spec's end-to-end
example frame (SET voltage 12.0). -/
theorem c2_encode_decode_roundtrip_witness :
    (0xB1 ≤ 255 ∧ 193 ≤ 255 ∧ ([0, 0, 64, 65] : List Nat).length ≤ 255 ∧
      (∀ b ∈ ([0, 0, 64, 65] : List Nat), b ≤ 255)) ∧
    decode_packet ((encode_packet 0xB1 193 [0, 0, 64, 65]).set 0 HEADER_INPUT) =
      .ok (0xB1, 193, 4, [0, 0, 64, 65]) :=
  ⟨⟨by decide, by decide, by decide, by decide⟩,
   c2_encode_decode_roundtrip 0xB1 193 [0, 0, 64, 65]
     (by decide) (by decide) (by decide) (by decide)⟩

/-- C6 (amended): `bytes_to_float` fails with the protocol error
(`DPS150ProtocolError`) — not the invalid-argument error — when given
fewer than 4 bytes; with at least 4 bytes it returns the little-endian
IEEE-754 single-precision value of the first 4 bytes, so appending
further bytes does not change the result. -/
theorem c6_bytes_to_float_short (data : List Nat) :
    (data.length < 4 → bytes_to_float data = .error .protocolError) ∧
    (4 ≤ data.length →
      bytes_to_float data = .ok (f32FromBits (leWord32 (data.take 4))) ∧
      ∀ extra : List Nat, bytes_to_float (data ++ extra) = bytes_to_float data) := by
  constructor
  · intro h
    simp [bytes_to_float, h]
  · intro h
    constructor
    · simp [bytes_to_float, Nat.not_lt.mpr h]
    · intro extra
      have hlen : ¬ (data ++ extra).length < 4 := by
        simp [List.length_append]; omega
      have htk : (data ++ extra).take 4 = data.take 4 := by
        rw [List.take_append_eq_append_take]
        have : 4 - data.length = 0 := by omega
        simp [this]
      simp [bytes_to_float, hlen, Nat.not_lt.mpr h, htk]
      omega

/-- Witness for `c6_bytes_to_float_short` at a 1-byte and a 4-byte input. -/
theorem c6_bytes_to_float_short_witness :
    (([0] : List Nat).length < 4 ∧ bytes_to_float [0] = .error .protocolError) ∧
    (4 ≤ ([0, 0, 64, 65] : List Nat).length ∧
      bytes_to_float [0, 0, 64, 65] =
        .ok (f32FromBits (leWord32 (([0, 0, 64, 65] : List Nat).take 4)))) :=
  ⟨⟨by decide, (c6_bytes_to_float_short [0]).1 (by decide)⟩,
   ⟨by decide, ((c6_bytes_to_float_short [0, 0, 64, 65]).2 (by decide)).1⟩⟩

/-- C6 counterexample to the claim as stated: with fewer than 4 bytes the
raised error is the protocol error, not the invalid-argument error
(`ValueError`) that the claim names. -/
theorem c6_counterexample :
    bytes_to_float [0] = .error .protocolError ∧
    DPSErr.protocolError ≠ DPSErr.valueError := by
  exact ⟨by decide, by decide⟩

/-- C7: `set_brightness` and `set_volume` fail with the invalid-argument
error (`ValueError`) for every value outside 0-10 and `set_group` for
every group outside 1-6 — regardless of whether the transport is
attached, i.e. before any frame is written — while the boundary values 0
and 10 succeed and write exactly one frame. -/
theorem c7_domain_validation (connected : Bool) (value group : Int)
    (voltage current : PyFloat)
    (hv : ¬ (0 ≤ value ∧ value ≤ 10)) (hg : ¬ (1 ≤ group ∧ group ≤ 6)) :
    set_brightness connected value = .error .valueError ∧
    set_volume connected value = .error .valueError ∧
    set_group connected group voltage current = .error .valueError ∧
    set_brightness true 0 = .ok [encode_packet CMD_SET BRIGHTNESS [0]] ∧
    set_brightness true 10 = .ok [encode_packet CMD_SET BRIGHTNESS [10]] ∧
    set_volume true 0 = .ok [encode_packet CMD_SET VOLUME [0]] ∧
    set_volume true 10 = .ok [encode_packet CMD_SET VOLUME [10]] := by
  refine ⟨?_, ?_, ?_, ?_, ?_, ?_, ?_⟩
  · unfold set_brightness; rw [if_pos hv]
  · unfold set_volume; rw [if_pos hv]
  · unfold set_group; rw [if_pos hg]
  · decide
  · decide
  · decide
  · decide

/-- Witness for `c7_domain_validation` at brightness 11 and group 0. -/
theorem c7_domain_validation_witness :
    (¬ ((0 : Int) ≤ 11 ∧ (11 : Int) ≤ 10) ∧ ¬ ((1 : Int) ≤ 0 ∧ (0 : Int) ≤ 6)) ∧
    (set_brightness false 11 = .error .valueError ∧
     set_volume false 11 = .error .valueError ∧
     set_group false 0 ⟨0⟩ ⟨0⟩ = .error .valueError ∧
     set_brightness true 0 = .ok [encode_packet CMD_SET BRIGHTNESS [0]] ∧
     set_brightness true 10 = .ok [encode_packet CMD_SET BRIGHTNESS [10]] ∧
     set_volume true 0 = .ok [encode_packet CMD_SET VOLUME [0]] ∧
     set_volume true 10 = .ok [encode_packet CMD_SET VOLUME [10]]) :=
  ⟨⟨by decide, by decide⟩,
   c7_domain_validation false 11 0 ⟨0⟩ ⟨0⟩ (by decide) (by decide)⟩

/-- C9 (amended): a valid `set_group` call writes exactly four frames —
the live set-point voltage and current first, then the group-slot voltage
and current, in that order. -/
theorem c9_set_group_frames (group : Int) (voltage current : PyFloat)
    (h1 : 1 ≤ group) (h6 : group ≤ 6) :
    set_group true group voltage current = .ok
      [encode_packet CMD_SET VOLTAGE_SET (float_to_bytes voltage),
       encode_packet CMD_SET CURRENT_SET (float_to_bytes current),
       encode_packet CMD_SET (((GROUP1_VOLTAGE_SET : Int) + (group - 1) * 2).toNat)
         (float_to_bytes voltage),
       encode_packet CMD_SET (((GROUP1_CURRENT_SET : Int) + (group - 1) * 2).toNat)
         (float_to_bytes current)] := by
  unfold set_group
  rw [if_neg (not_not_intro ⟨h1, h6⟩)]
  rfl

/-- Witness for `c9_set_group_frames` at group 1, voltage 5.0, current 0.5. -/
theorem c9_set_group_frames_witness :
    ((1 : Int) ≤ 1 ∧ (1 : Int) ≤ 6) ∧
    set_group true 1 ⟨0x40A00000⟩ ⟨0x3F000000⟩ = .ok
      [encode_packet CMD_SET VOLTAGE_SET (float_to_bytes ⟨0x40A00000⟩),
       encode_packet CMD_SET CURRENT_SET (float_to_bytes ⟨0x3F000000⟩),
       encode_packet CMD_SET (((GROUP1_VOLTAGE_SET : Int) + ((1 : Int) - 1) * 2).toNat)
         (float_to_bytes ⟨0x40A00000⟩),
       encode_packet CMD_SET (((GROUP1_CURRENT_SET : Int) + ((1 : Int) - 1) * 2).toNat)
         (float_to_bytes ⟨0x3F000000⟩)] :=
  ⟨⟨by decide, by decide⟩,
   c9_set_group_frames 1 ⟨0x40A00000⟩ ⟨0x3F000000⟩ (by decide) (by decide)⟩

/-- C9 counterexample to the claim as stated: a valid combined set-group
call enqueues four frames, not the two the claim asserts. -/
theorem c9_counterexample :
    (set_group true 1 ⟨0x40A00000⟩ ⟨0x3F000000⟩).map List.length = .ok 4 ∧
    (4 : Nat) ≠ 2 := by
  exact ⟨by decide, by decide⟩

/-- C10: an inbound frame with an empty payload (declared length 0)
produces no update at all: the state and device info are unchanged and no
callback is invoked. -/
theorem c10_empty_payload_no_update (state : DeviceState) (info : DeviceInfo)
    (command type_code : Nat) :
    on_packet_received state info command type_code [] = (state, info, false) := by
  have hp : parse_packet_data type_code [] = .ok none := by
    simp [parse_packet_data]
    rfl
  unfold on_packet_received
  rw [hp]

/-! ## Claim theorems: checksum sensitivity -/

lemma sum_set_getD (l : List Nat) (j v : Nat) (hj : j < l.length) :
    (l.set j v).sum + l.getD j 0 = l.sum + v := by
  induction l generalizing j with
  | nil => simp at hj
  | cons a t ih =>
    cases j with
    | zero => simp [List.sum_cons]; omega
    | succ n =>
      have hn : n < t.length := by simpa using hj
      have := ih n hn
      simp only [List.set, List.sum_cons, List.getD_cons_succ]
      omega

set_option maxRecDepth 4000 in
lemma xorTwoPow : ∀ d < 256, ∀ k < 8,
    d ^^^ 2 ^ k = d + 2 ^ k ∨ d = (d ^^^ 2 ^ k) + 2 ^ k := by decide

set_option maxRecDepth 4000 in
lemma xorTwoPowOfTestBit : ∀ d < 256, ∀ k < 8,
    d.testBit k = false → d ^^^ 2 ^ k = d + 2 ^ k := by decide

lemma checksum_flip_ne (h1 c1 h2 c2 ty : Nat) (data : List Nat) (j k : Nat)
    (hb : ∀ b ∈ data, b ≤ 255) (hj : j < data.length) (hk : k < 8) :
    calculate_checksum h1 c1 ty data ≠
      calculate_checksum h2 c2 ty (data.set j (data.getD j 0 ^^^ 2 ^ k)) := by
  unfold calculate_checksum
  have hd : data.getD j 0 ≤ 255 := by
    have hmem : data.getD j 0 ∈ data := by
      rw [List.getD_eq_getElem _ _ hj]
      exact List.getElem_mem hj
    exact hb _ hmem
  have hlenset : (data.set j (data.getD j 0 ^^^ 2 ^ k)).length = data.length := by simp
  have hsum := sum_set_getD data j (data.getD j 0 ^^^ 2 ^ k) hj
  have hp1 : 0 < 2 ^ k := by positivity
  have hp2 : 2 ^ k ≤ 128 := by
    calc 2 ^ k ≤ 2 ^ 7 := Nat.pow_le_pow_right (by omega) (by omega)
    _ = 128 := by norm_num
  rw [hlenset]
  rcases xorTwoPow (data.getD j 0) (by omega) k hk with hca | hcb <;> omega

/-- C3 (amended): for a well-formed inbound frame, flipping any single
bit of a payload byte (without recomputing the checksum) makes decode
fail with a ProtocolError, and so does flipping any clear bit of the
declared length byte (which increases the declared length); flipping a
bit in the header or command byte does not change the computed checksum
at all, since both are excluded from it.  (A set bit of the length byte
flipped low can yield a successful decode of a shorter frame; see the
counterexample.) -/
theorem c3_checksum_sensitivity (cmd ty : Nat) (data : List Nat) (j k : Nat)
    (hlen : data.length ≤ 255) (hb : ∀ b ∈ data, b ≤ 255)
    (hj : j < data.length) (hk : k < 8) :
    (decode_packet (HEADER_INPUT :: cmd :: ty :: data.length ::
        ((data.set j (data.getD j 0 ^^^ 2 ^ k)) ++
          [calculate_checksum HEADER_INPUT cmd ty data])) = .error .protocolError) ∧
    ((data.length).testBit k = false →
      decode_packet (HEADER_INPUT :: cmd :: ty :: (data.length ^^^ 2 ^ k) ::
        (data ++ [calculate_checksum HEADER_INPUT cmd ty data])) = .error .protocolError) ∧
    (∀ h h' c c' : Nat, calculate_checksum h c ty data = calculate_checksum h' c' ty data) := by
  refine ⟨?_, ?_, fun _ _ _ _ => rfl⟩
  · set data' := data.set j (data.getD j 0 ^^^ 2 ^ k) with hdata'
    set c := calculate_checksum HEADER_INPUT cmd ty data with hc
    set P := HEADER_INPUT :: cmd :: ty :: data.length :: (data' ++ [c]) with hP
    have hlen' : data'.length = data.length := by simp [hdata']
    have hL : P.length = 5 + data.length := by
      simp [hP, List.length_append, hlen']; omega
    have h0 : P.getD 0 0 = HEADER_INPUT := rfl
    have h1 : P.getD 1 0 = cmd := rfl
    have h2 : P.getD 2 0 = ty := rfl
    have h3 : P.getD 3 0 = data.length := rfl
    have htake : (P.drop 4).take data.length = data' := by
      have hdrop : P.drop 4 = data' ++ [c] := rfl
      rw [hdrop, List.take_left' hlen']
    have hck : P.getD (4 + data.length) 0 = c := by
      have he : P = [HEADER_INPUT, cmd, ty, data.length] ++ (data' ++ [c]) := rfl
      rw [he, List.getD_append_right _ _ _ _ (by simp)]
      simp [List.getD_append_right _ _ _ _ (le_of_eq hlen'.symm), hlen']
    simp only [decode_packet, hL, h0, h1, h2, h3, htake, hck]
    rw [if_neg (by omega), if_neg (by simp), if_neg (by omega),
      if_pos (checksum_flip_ne HEADER_INPUT cmd HEADER_INPUT cmd ty data j k hb hj hk)]
  · intro htb
    set c := calculate_checksum HEADER_INPUT cmd ty data with hc
    set P := HEADER_INPUT :: cmd :: ty :: (data.length ^^^ 2 ^ k) :: (data ++ [c]) with hP
    have hxor : data.length ^^^ 2 ^ k = data.length + 2 ^ k :=
      xorTwoPowOfTestBit data.length (by omega) k hk htb
    have hp1 : 0 < 2 ^ k := by positivity
    have hL : P.length = 5 + data.length := by
      simp [hP, List.length_append]; omega
    have h0 : P.getD 0 0 = HEADER_INPUT := rfl
    have h3 : P.getD 3 0 = data.length ^^^ 2 ^ k := rfl
    simp only [decode_packet, hL, h0, h3, hxor]
    rw [if_neg (by omega), if_neg (by simp), if_pos (by omega)]

/-- Witness for `c3_checksum_sensitivity` at a concrete one-byte-payload
frame, payload position 0, bit 1. -/
theorem c3_checksum_sensitivity_witness :
    (([5] : List Nat).length ≤ 255 ∧ (∀ b ∈ ([5] : List Nat), b ≤ 255) ∧
      0 < ([5] : List Nat).length ∧ 1 < 8) ∧
    ((decode_packet (HEADER_INPUT :: 0xA1 :: 0 :: ([5] : List Nat).length ::
        ((([5] : List Nat).set 0 (([5] : List Nat).getD 0 0 ^^^ 2 ^ 1)) ++
          [calculate_checksum HEADER_INPUT 0xA1 0 [5]])) = .error .protocolError) ∧
     ((([5] : List Nat).length).testBit 1 = false →
      decode_packet (HEADER_INPUT :: 0xA1 :: 0 :: (([5] : List Nat).length ^^^ 2 ^ 1) ::
        (([5] : List Nat) ++ [calculate_checksum HEADER_INPUT 0xA1 0 [5]])) =
          .error .protocolError) ∧
     (∀ h h' c c' : Nat, calculate_checksum h c 0 [5] = calculate_checksum h' c' 0 [5])) :=
  ⟨⟨by decide, by decide, by decide, by decide⟩,
   c3_checksum_sensitivity 0xA1 0 [5] 0 1 (by decide) (by decide) (by decide) (by decide)⟩

/-- C3 counterexample to the claim as stated: the well-formed frame
`[0xF0, 0xA1, 0x00, 0x01, 0x00, 0x01]` decodes successfully, yet flipping
bit 0 of its declared length byte (1 becomes 0) yields a frame that also
decodes successfully — as an empty-payload frame whose stray data byte
happens to be a valid checksum — instead of failing with a ProtocolError. -/
theorem c3_counterexample :
    decode_packet [0xF0, 0xA1, 0x00, 0x01, 0x00, 0x01] = .ok (0xA1, 0, 1, [0]) ∧
    decode_packet [0xF0, 0xA1, 0x00, 0x01 ^^^ 2 ^ 0, 0x00, 0x01] = .ok (0xA1, 0, 0, []) := by
  exact ⟨by decide, by decide⟩

/-! ## Claim theorems: protection-state decoding -/

/-- C5 (amended): a protection-state frame (type 220) with an
out-of-range index (7 or more) produces no update at all — the field is
dropped and the packet handled without failure — while an in-range index
0-6 updates the protection state to the corresponding enumeration member
(0 being Normal). -/
theorem c5_protection_state (st : DeviceState) (info : DeviceInfo)
    (cmd b : Nat) (rest : List Nat) :
    (7 ≤ b →
      on_packet_received st info cmd PROTECTION_STATE (b :: rest) = (st, info, false)) ∧
    (b < 7 →
      (on_packet_received st info cmd PROTECTION_STATE (b :: rest)).1.protection_state =
        ProtectionState.members.getD b .NORMAL ∧
      (on_packet_received st info cmd PROTECTION_STATE (b :: rest)).2.2 = true) := by
  have hidx : (b :: rest).getD 0 0 = b := rfl
  constructor
  · intro hb
    have hb7 : ¬ b < 7 := by omega
    simp [on_packet_received, parse_packet_data, PROTECTION_STATE, INPUT_VOLTAGE,
      OUTPUT_VOLTAGE_CURRENT_POWER, TEMPERATURE, OUTPUT_CAPACITY, OUTPUT_ENERGY,
      OUTPUT_ENABLE, hidx, PROTECTION_STATES, hb7, pure, Except.pure, Bind.bind, Except.bind, ParsedData.mk.injEq]
  · intro hb
    constructor
    · simp [on_packet_received, parse_packet_data, PROTECTION_STATE, INPUT_VOLTAGE,
        OUTPUT_VOLTAGE_CURRENT_POWER, TEMPERATURE, OUTPUT_CAPACITY, OUTPUT_ENERGY,
        OUTPUT_ENABLE, hidx, PROTECTION_STATES, hb, pure, Except.pure, Bind.bind, Except.bind, ParsedData.mk.injEq,
        DeviceState.update_from_dict, Option.elim]
      interval_cases b <;> rfl
    · simp [on_packet_received, parse_packet_data, PROTECTION_STATE, INPUT_VOLTAGE,
        OUTPUT_VOLTAGE_CURRENT_POWER, TEMPERATURE, OUTPUT_CAPACITY, OUTPUT_ENERGY,
        OUTPUT_ENABLE, hidx, PROTECTION_STATES, hb, pure, Except.pure, Bind.bind, Except.bind, ParsedData.mk.injEq]

/-- Witness for `c5_protection_state` at index 7 (out of range) and
index 2 (OCP). -/
theorem c5_protection_state_witness :
    (7 ≤ 7 ∧ 2 < 7) ∧
    (on_packet_received {} {} 0xA1 PROTECTION_STATE (7 :: []) = ({}, {}, false)) ∧
    ((on_packet_received {} {} 0xA1 PROTECTION_STATE (2 :: [])).1.protection_state =
        ProtectionState.members.getD 2 .NORMAL ∧
      (on_packet_received {} {} 0xA1 PROTECTION_STATE (2 :: [])).2.2 = true) :=
  ⟨⟨by decide, by decide⟩,
   (c5_protection_state {} {} 0xA1 7 []).1 (by decide),
   (c5_protection_state {} {} 0xA1 2 []).2 (by decide)⟩

/-- C5 counterexample to the claim as stated: an out-of-range index (7)
does not decode to the Normal protection state — it produces no update,
leaving a non-Normal prior state in place. -/
theorem c5_counterexample :
    parse_packet_data PROTECTION_STATE [7] = .ok none ∧
    (on_packet_received { protection_state := .OVP } {} 0xA1 PROTECTION_STATE
        [7]).1.protection_state = ProtectionState.OVP ∧
    ProtectionState.OVP ≠ ProtectionState.NORMAL := by
  exact ⟨by decide, by decide, by decide⟩

/-! ## Claim theorems: all-state decoding -/

/-- The shape of the dict built by the all-state branch: every all-state
field is present and the three identity strings are absent. -/
def allStateFieldsSet (d : ParsedData) : Prop :=
  d.inputVoltage.isSome = true ∧ d.setVoltage.isSome = true ∧
  d.setCurrent.isSome = true ∧ d.outputVoltage.isSome = true ∧
  d.outputCurrent.isSome = true ∧ d.outputPower.isSome = true ∧
  d.temperature.isSome = true ∧
  d.group1setVoltage.isSome = true ∧ d.group1setCurrent.isSome = true ∧
  d.group2setVoltage.isSome = true ∧ d.group2setCurrent.isSome = true ∧
  d.group3setVoltage.isSome = true ∧ d.group3setCurrent.isSome = true ∧
  d.group4setVoltage.isSome = true ∧ d.group4setCurrent.isSome = true ∧
  d.group5setVoltage.isSome = true ∧ d.group5setCurrent.isSome = true ∧
  d.group6setVoltage.isSome = true ∧ d.group6setCurrent.isSome = true ∧
  d.overVoltageProtection.isSome = true ∧ d.overCurrentProtection.isSome = true ∧
  d.overPowerProtection.isSome = true ∧ d.overTemperatureProtection.isSome = true ∧
  d.lowVoltageProtection.isSome = true ∧
  d.brightness.isSome = true ∧ d.volume.isSome = true ∧
  d.meteringClosed.isSome = true ∧
  d.outputCapacity.isSome = true ∧ d.outputEnergy.isSome = true ∧
  d.outputClosed.isSome = true ∧ d.protectionState.isSome = true ∧
  d.mode.isSome = true ∧
  d.upperLimitVoltage.isSome = true ∧ d.upperLimitCurrent.isSome = true ∧
  d.modelName = none ∧ d.hardwareVersion = none ∧ d.firmwareVersion = none

/-- C1 (amended): an all-state (type 255) payload shorter than 139 bytes
— in particular one truncated to 100 bytes — produces no update at all
(the decoder returns no field set, without failing); a payload of at
least 139 bytes decodes successfully with every all-state field present. -/
theorem c1_all_state_truncation (data : List Nat) :
    (data.length < 139 → parse_packet_data ALL data = .ok none) ∧
    (139 ≤ data.length → ∃ d : ParsedData,
      parse_packet_data ALL data = .ok (some d) ∧ allStateFieldsSet d) := by
  constructor
  · intro h
    rcases Nat.eq_zero_or_pos data.length with h0 | h0
    · simp [parse_packet_data, h0, pure, Except.pure]
    · have hne : ¬ data.length = 0 := by omega
      have h139 : ¬ 139 ≤ data.length := by omega
      simp [parse_packet_data, ALL, INPUT_VOLTAGE, OUTPUT_VOLTAGE_CURRENT_POWER,
        TEMPERATURE, OUTPUT_CAPACITY, OUTPUT_ENERGY, OUTPUT_ENABLE, PROTECTION_STATE,
        MODE, MODEL_NAME, HARDWARE_VERSION, FIRMWARE_VERSION, UPPER_LIMIT_VOLTAGE,
        UPPER_LIMIT_CURRENT, hne, h139, pure, Except.pure, Bind.bind, Except.bind]
  · intro h
    have hne : ¬ data.length = 0 := by omega
    have hfl : ∀ a b : Nat, b ≤ data.length → a + 4 = b →
        bytes_to_float (pySlice data a b) =
          .ok (f32FromBits (leWord32 (pySlice data a b))) := by
      intro a b hb hab
      have hl : (pySlice data a b).length = 4 := by
        simp [pySlice, List.length_take, List.length_drop]
        omega
      rw [bytes_to_float, if_neg (by omega)]
      rw [show (pySlice data a b).take 4 = pySlice data a b from by
        rw [← hl, List.take_length]]
    have hAll : ∃ d : ParsedData, parseAllState data = .ok d ∧ allStateFieldsSet d := by
      unfold parseAllState
      have h102 : 102 < data.length := by omega
      have h106 : 106 < data.length := by omega
      have h114 : 114 < data.length := by omega
      have h118 : 118 < data.length := by omega
      simp only [hfl 0 4 (by omega) rfl, hfl 4 8 (by omega) rfl, hfl 8 12 (by omega) rfl,
        hfl 12 16 (by omega) rfl, hfl 16 20 (by omega) rfl, hfl 20 24 (by omega) rfl,
        hfl 24 28 (by omega) rfl, hfl 28 32 (by omega) rfl, hfl 32 36 (by omega) rfl,
        hfl 36 40 (by omega) rfl, hfl 40 44 (by omega) rfl, hfl 44 48 (by omega) rfl,
        hfl 48 52 (by omega) rfl, hfl 52 56 (by omega) rfl, hfl 56 60 (by omega) rfl,
        hfl 60 64 (by omega) rfl, hfl 64 68 (by omega) rfl, hfl 68 72 (by omega) rfl,
        hfl 72 76 (by omega) rfl, hfl 76 80 (by omega) rfl, hfl 80 84 (by omega) rfl,
        hfl 84 88 (by omega) rfl, hfl 88 92 (by omega) rfl, hfl 92 96 (by omega) rfl,
        h102, h106, h114, h118, if_true,
        hfl 99 103 (by omega) rfl, hfl 103 107 (by omega) rfl,
        hfl 111 115 (by omega) rfl, hfl 115 119 (by omega) rfl,
        Bind.bind, Except.bind]
      refine ⟨_, rfl, ?_⟩
      simp [allStateFieldsSet]
    obtain ⟨d, hd, hshape⟩ := hAll
    refine ⟨d, ?_, hshape⟩
    have hdne : ¬ d = ({} : ParsedData) := by
      intro hcontra
      have h1 := hshape.1
      rw [hcontra] at h1
      simp at h1
    simp [parse_packet_data, ALL, INPUT_VOLTAGE, OUTPUT_VOLTAGE_CURRENT_POWER,
      TEMPERATURE, OUTPUT_CAPACITY, OUTPUT_ENERGY, OUTPUT_ENABLE, PROTECTION_STATE,
      MODE, MODEL_NAME, HARDWARE_VERSION, FIRMWARE_VERSION, UPPER_LIMIT_VOLTAGE,
      UPPER_LIMIT_CURRENT, hne, h, hd, hdne, pure, Except.pure, Bind.bind, Except.bind]

/-- Witness for `c1_all_state_truncation` at a 100-byte and a 139-byte
all-state payload. -/
theorem c1_all_state_truncation_witness :
    ((List.replicate 100 (1 : Nat)).length < 139 ∧
      parse_packet_data ALL (List.replicate 100 (1 : Nat)) = .ok none) ∧
    (139 ≤ (List.replicate 139 (1 : Nat)).length ∧
      ∃ d : ParsedData,
        parse_packet_data ALL (List.replicate 139 (1 : Nat)) = .ok (some d) ∧
        allStateFieldsSet d) :=
  ⟨⟨by decide, (c1_all_state_truncation (List.replicate 100 1)).1 (by decide)⟩,
   ⟨by decide, (c1_all_state_truncation (List.replicate 139 1)).2 (by decide)⟩⟩

/-- C1 counterexample to the claim as stated: a 100-byte all-state
payload does not decode its in-range fields — it produces no update at
all (`None`), and the whole receive path leaves the state untouched. -/
theorem c1_counterexample :
    parse_packet_data ALL (List.replicate 100 1) = .ok none ∧
    on_packet_received {} {} 0xA1 ALL (List.replicate 100 1) = ({}, {}, false) := by
  exact ⟨by decide, by decide⟩

/-! ## Claim theorems: stream framer -/

lemma extractLoop_stop (fuel : Nat) (buf : List Nat) (i : Nat) (acc : List (List Nat))
    (h : ¬ i + 5 < buf.length) : extractLoop fuel buf i acc = (acc.reverse, i) := by
  cases fuel with
  | zero => rfl
  | succ n => simp [extractLoop, h]

lemma extractLoop_header_stop (fuel : Nat) (buf : List Nat) (i : Nat) (acc : List (List Nat))
    (h5 : i + 5 < buf.length) (hh : buf.getD i 0 = HEADER_INPUT)
    (h3 : buf.length ≤ i + 3) :
    extractLoop (fuel + 1) buf i acc = (acc.reverse, i) := by
  simp only [extractLoop]
  rw [if_pos h5, hh, if_pos rfl, if_pos h3]

lemma extractLoop_incomplete (fuel : Nat) (buf : List Nat) (i : Nat) (acc : List (List Nat))
    (h5 : i + 5 < buf.length) (hh : buf.getD i 0 = HEADER_INPUT)
    (h3 : ¬ buf.length ≤ i + 3)
    (hc : buf.length < i + (5 + buf.getD (i + 3) 0)) :
    extractLoop (fuel + 1) buf i acc = (acc.reverse, i) := by
  simp only [extractLoop]
  rw [if_pos h5, hh, if_pos rfl, if_neg h3, if_pos hc]

lemma extractLoop_emit (fuel : Nat) (buf : List Nat) (i : Nat) (acc : List (List Nat))
    (h5 : i + 5 < buf.length) (hh : buf.getD i 0 = HEADER_INPUT)
    (h3 : ¬ buf.length ≤ i + 3)
    (hc : ¬ buf.length < i + (5 + buf.getD (i + 3) 0)) :
    extractLoop (fuel + 1) buf i acc =
      extractLoop fuel buf (i + (5 + buf.getD (i + 3) 0))
        (((buf.drop i).take (5 + buf.getD (i + 3) 0)) :: acc) := by
  simp only [extractLoop]
  rw [if_pos h5, hh, if_pos rfl, if_neg h3, if_neg hc]

lemma extractLoop_skip (fuel : Nat) (buf : List Nat) (i : Nat) (acc : List (List Nat))
    (h5 : i + 5 < buf.length) (hh : ¬ buf.getD i 0 = HEADER_INPUT) :
    extractLoop (fuel + 1) buf i acc = extractLoop fuel buf (i + 1) acc := by
  simp only [extractLoop]
  rw [if_pos h5, if_neg hh]

lemma extract_prefix_eq (cmd ty L ck : Nat) (data : List Nat) (hdl : data.length = L)
    (p t : List Nat) (ht : t ≠ [])
    (hpt : p ++ t = HEADER_INPUT :: cmd :: ty :: L :: (data ++ [ck])) :
    extract_packets p = ([], p) := by
  have hplen : p.length < 5 + L := by
    have hlt := congrArg List.length hpt
    simp [List.length_append, hdl] at hlt
    have htpos : 0 < t.length := List.length_pos.mpr ht
    omega
  by_cases h6 : p.length ≤ 5
  · unfold extract_packets
    rw [extractLoop_stop _ _ _ _ (by omega)]
    simp
  · have h6' : 5 < p.length := by omega
    obtain ⟨m, hm⟩ : ∃ m, p.length = m + 1 := ⟨p.length - 1, by omega⟩
    have hp0 : p.getD 0 0 = HEADER_INPUT := by
      have hQ : (p ++ t).getD 0 0 = p.getD 0 0 := List.getD_append _ _ _ _ (by omega)
      rw [hpt] at hQ
      simpa using hQ.symm
    have hp3 : p.getD (0 + 3) 0 = L := by
      have hQ : (p ++ t).getD 3 0 = p.getD 3 0 := List.getD_append _ _ _ _ (by omega)
      rw [hpt] at hQ
      simpa using hQ.symm
    unfold extract_packets
    rw [hm, extractLoop_incomplete m p 0 [] (by omega) hp0 (by omega)
      (by rw [hp3]; omega)]
    simp

lemma extract_full_frame (cmd ty ck : Nat) (data : List Nat) (hL1 : 1 ≤ data.length) :
    extract_packets (HEADER_INPUT :: cmd :: ty :: data.length :: (data ++ [ck])) =
      ([HEADER_INPUT :: cmd :: ty :: data.length :: (data ++ [ck])], []) := by
  set F := HEADER_INPUT :: cmd :: ty :: data.length :: (data ++ [ck]) with hF
  have hFlen : F.length = 5 + data.length := by
    simp [hF, List.length_append]
    omega
  have hgd : F.getD (0 + 3) 0 = data.length := rfl
  have htake : F.take (5 + data.length) = F := by
    rw [← hFlen, List.take_length]
  have hdropF : F.drop (5 + data.length) = [] := by
    rw [← hFlen, List.drop_length]
  obtain ⟨m, hm⟩ : ∃ m, F.length = m + 1 := ⟨F.length - 1, by omega⟩
  unfold extract_packets
  rw [hm, extractLoop_emit m F 0 [] (by omega) rfl (by omega) (by rw [hgd]; omega)]
  rw [hgd, List.drop_zero, Nat.zero_add, htake]
  rw [extractLoop_stop m F (5 + data.length) [F] (by omega)]
  simp [hdropF]

lemma runChunks_nil_flatten (chunks : List (List Nat)) (hj : chunks.flatten = []) :
    runChunks chunks [] = ([], []) := by
  induction chunks with
  | nil => rfl
  | cons c rest ih =>
    have hcr : c ++ rest.flatten = [] := by simpa [List.flatten_cons] using hj
    have hc : c = [] := (List.append_eq_nil.mp hcr).1
    have hrest : rest.flatten = [] := (List.append_eq_nil.mp hcr).2
    subst hc
    have hextract : extract_packets ([] : List Nat) = ([], []) := by
      unfold extract_packets
      rw [extractLoop_stop _ _ _ _ (by simp)]
      simp
    simp [runChunks, hextract, ih hrest]

lemma runChunks_frame (cmd ty ck : Nat) (data : List Nat) (hL1 : 1 ≤ data.length)
    (chunks : List (List Nat)) :
    ∀ buf : List Nat,
      buf ++ chunks.flatten = HEADER_INPUT :: cmd :: ty :: data.length :: (data ++ [ck]) →
      buf.length < (HEADER_INPUT :: cmd :: ty :: data.length :: (data ++ [ck])).length →
      runChunks chunks buf =
        ([HEADER_INPUT :: cmd :: ty :: data.length :: (data ++ [ck])], []) := by
  induction chunks with
  | nil =>
    intro buf hjoin hlen
    exfalso
    simp at hjoin
    rw [hjoin] at hlen
    omega
  | cons c rest ih =>
    intro buf hjoin hlen
    have hassoc : (buf ++ c) ++ rest.flatten =
        HEADER_INPUT :: cmd :: ty :: data.length :: (data ++ [ck]) := by
      rw [List.append_assoc]
      simpa [List.flatten_cons] using hjoin
    by_cases hcomplete : (buf ++ c).length =
        (HEADER_INPUT :: cmd :: ty :: data.length :: (data ++ [ck])).length
    · have hlens := congrArg List.length hassoc
      simp only [List.length_append] at hlens hcomplete
      have hrest : rest.flatten = [] := by
        refine List.length_eq_zero.mp ?_
        omega
      have hbc : buf ++ c = HEADER_INPUT :: cmd :: ty :: data.length :: (data ++ [ck]) := by
        rw [hrest, List.append_nil] at hassoc
        exact hassoc
      simp only [runChunks, hbc, extract_full_frame cmd ty ck data hL1,
        runChunks_nil_flatten rest hrest]
      simp
    · have hle : (buf ++ c).length ≤
          (HEADER_INPUT :: cmd :: ty :: data.length :: (data ++ [ck])).length := by
        have hlens := congrArg List.length hassoc
        simp only [List.length_append] at hlens ⊢
        omega
      have hlt : (buf ++ c).length <
          (HEADER_INPUT :: cmd :: ty :: data.length :: (data ++ [ck])).length := by
        omega
      have hrestne : rest.flatten ≠ [] := by
        intro hnil
        rw [hnil, List.append_nil] at hassoc
        rw [hassoc] at hcomplete
        exact hcomplete rfl
      simp only [runChunks,
        extract_prefix_eq cmd ty data.length ck data rfl (buf ++ c) rest.flatten hrestne hassoc,
        ih (buf ++ c) hassoc hlt]
      simp

/-- C4 (amended): for every complete valid inbound frame with payload
length 1-255 and every partition of its bytes into chunks, feeding the
chunks to the framer in order (extracting after each feed) yields exactly
the one frame with an empty buffer left — the same as delivering the
frame whole, which is the one-chunk partition.  (A valid frame with
payload length 0 is never extracted; see the counterexample.) -/
theorem c4_framer_fragmentation (cmd ty : Nat) (data : List Nat)
    (chunks : List (List Nat)) (hL1 : 1 ≤ data.length) (hL255 : data.length ≤ 255)
    (hjoin : chunks.flatten = HEADER_INPUT :: cmd :: ty :: data.length ::
      (data ++ [calculate_checksum HEADER_INPUT cmd ty data])) :
    runChunks chunks [] = ([HEADER_INPUT :: cmd :: ty :: data.length ::
      (data ++ [calculate_checksum HEADER_INPUT cmd ty data])], []) := by
  refine runChunks_frame cmd ty _ data hL1 chunks [] (by simpa using hjoin) ?_
  simp

/-- Witness for `c4_framer_fragmentation`: a one-byte-payload frame
delivered one byte at a time. -/
theorem c4_framer_fragmentation_witness :
    (1 ≤ ([7] : List Nat).length ∧ ([7] : List Nat).length ≤ 255 ∧
      ([[0xF0], [0xA1], [0xC0], [1], [7], [200]] : List (List Nat)).flatten =
        HEADER_INPUT :: 0xA1 :: 0xC0 :: ([7] : List Nat).length ::
          (([7] : List Nat) ++ [calculate_checksum HEADER_INPUT 0xA1 0xC0 [7]])) ∧
    runChunks [[0xF0], [0xA1], [0xC0], [1], [7], [200]] [] =
      ([HEADER_INPUT :: 0xA1 :: 0xC0 :: ([7] : List Nat).length ::
        (([7] : List Nat) ++ [calculate_checksum HEADER_INPUT 0xA1 0xC0 [7]])], []) :=
  ⟨⟨by decide, by decide, by decide⟩,
   c4_framer_fragmentation 0xA1 0xC0 [7] [[0xF0], [0xA1], [0xC0], [1], [7], [200]]
     (by decide) (by decide) (by decide)⟩

/-- C4 counterexample to the claim as stated: a complete valid inbound
frame with payload length 0 (5 bytes total) decodes fine, yet delivering
it whole to the framer extracts nothing — the scan loop requires at
least 6 buffered bytes — so no partition of it yields the frame. -/
theorem c4_counterexample :
    decode_packet [0xF0, 0xA1, 0xC0, 0, 0xC0] = .ok (0xA1, 0xC0, 0, []) ∧
    runChunks [[0xF0, 0xA1, 0xC0, 0, 0xC0]] [] = ([], [0xF0, 0xA1, 0xC0, 0, 0xC0]) := by
  exact ⟨by decide, by decide⟩

lemma extractLoop_resume_le (fuel : Nat) :
    ∀ (buf : List Nat) (i : Nat) (acc : List (List Nat)),
      i ≤ buf.length → (extractLoop fuel buf i acc).2 ≤ buf.length := by
  induction fuel with
  | zero =>
    intro buf i acc h
    simpa [extractLoop] using h
  | succ n ih =>
    intro buf i acc h
    by_cases h5 : i + 5 < buf.length
    · by_cases hh : buf.getD i 0 = HEADER_INPUT
      · by_cases h3 : buf.length ≤ i + 3
        · rw [extractLoop_header_stop n buf i acc h5 hh h3]
          exact h
        · by_cases hc : buf.length < i + (5 + buf.getD (i + 3) 0)
          · rw [extractLoop_incomplete n buf i acc h5 hh h3 hc]
            exact h
          · rw [extractLoop_emit n buf i acc h5 hh h3 hc]
            exact ih buf _ _ (by omega)
      · rw [extractLoop_skip n buf i acc h5 hh]
        exact ih buf _ _ (by omega)
    · rw [extractLoop_stop _ _ _ _ h5]
      exact h

/-- C8 (amended): after a call to extract() that extracts at least one
packet, the consumed bytes — everything up to the resume point, including
skipped non-sync noise bytes — are dropped from the accumulator, and the
unconsumed trailing bytes are retained (the new accumulator is the
dropped-prefix remainder); a call that extracts no packets leaves the
accumulator unchanged even when the scan skipped noise bytes (see the
counterexample). -/
theorem c8_extract_consumption (buf : List Nat) :
    ((extract_packets buf).1 = [] → (extract_packets buf).2 = buf) ∧
    ((extract_packets buf).1 ≠ [] →
      scanResume buf ≤ buf.length ∧
      buf.take (scanResume buf) ++ (extract_packets buf).2 = buf ∧
      (extract_packets buf).2 = buf.drop (scanResume buf)) := by
  have hle : (extractLoop buf.length buf 0 []).2 ≤ buf.length :=
    extractLoop_resume_le buf.length buf 0 [] (by omega)
  unfold extract_packets scanResume
  constructor
  · intro h
    by_cases hr : (extractLoop buf.length buf 0 []).1 = []
    · simp [hr]
    · simp [hr] at h
  · intro h
    by_cases hr : (extractLoop buf.length buf 0 []).1 = []
    · simp [hr] at h
    · rw [if_neg hr]
      exact ⟨hle, List.take_append_drop _ _, rfl⟩

/-- Witness for `c8_extract_consumption` on a buffer holding exactly one
complete frame. -/
theorem c8_extract_consumption_witness :
    (extract_packets [0xF0, 0xA1, 0xC0, 1, 7, 200]).1 ≠ [] ∧
    (scanResume [0xF0, 0xA1, 0xC0, 1, 7, 200] ≤
        ([0xF0, 0xA1, 0xC0, 1, 7, 200] : List Nat).length ∧
      ([0xF0, 0xA1, 0xC0, 1, 7, 200] : List Nat).take
          (scanResume [0xF0, 0xA1, 0xC0, 1, 7, 200]) ++
        (extract_packets [0xF0, 0xA1, 0xC0, 1, 7, 200]).2 =
          [0xF0, 0xA1, 0xC0, 1, 7, 200] ∧
      (extract_packets [0xF0, 0xA1, 0xC0, 1, 7, 200]).2 =
        ([0xF0, 0xA1, 0xC0, 1, 7, 200] : List Nat).drop
          (scanResume [0xF0, 0xA1, 0xC0, 1, 7, 200])) :=
  ⟨by decide, (c8_extract_consumption [0xF0, 0xA1, 0xC0, 1, 7, 200]).2 (by decide)⟩

/-- C8 counterexample to the claim as stated: on a buffer of seven
non-sync noise bytes the scan skips two bytes (resume point 2) but,
because no packet was extracted, nothing is dropped — the accumulator is
left unchanged rather than losing the skipped bytes. -/
theorem c8_counterexample :
    scanResume [1, 1, 1, 1, 1, 1, 1] = 2 ∧
    extract_packets [1, 1, 1, 1, 1, 1, 1] = ([], [1, 1, 1, 1, 1, 1, 1]) ∧
    List.drop 2 [1, 1, 1, 1, 1, 1, 1] ≠ [1, 1, 1, 1, 1, 1, 1] := by
  exact ⟨by decide, by decide, by decide⟩

end DPS150
